import Mathlib

/-!
Shallow embedding of the AI service adapter in
`src/.github/workflows/services/gemini.ts`.

The module wraps three remote calls: `generatePrompts` (script to image
prompts), `analyzeImageStyle` (image to style keywords) and `generateImage`
(prompt to image bytes).  Each operation is embedded as a pure function whose
extra argument is the outcome of the single remote call it performs: either a
response value of the shape the code reads from it, or a thrown JavaScript
value (an `Error` carrying a message, or any other value).  `JSON.parse` is
embedded as an executable JSON parser over a `Json` value type.
-/

/-- Embedding of the JavaScript values that `JSON.parse` can produce.
Numbers keep their raw lexeme (their numeric value is never used by the
code, only their truthiness). -/
inductive Json where
  | null : Json
  | bool (b : Bool) : Json
  | num (raw : String) : Json
  | str (s : String) : Json
  | arr (elems : List Json) : Json
  | obj (fields : List (String × Json)) : Json
deriving Repr

/-- Embedding of a thrown JavaScript value: `isError` tells whether it is an
`Error` instance (all errors thrown by the adapter itself are), and `message`
is its `.message` when it is one. -/
structure Thrown where
  isError : Bool
  message : String
deriving Repr, DecidableEq

-- ### Character-list string utilities (JS `includes` / `startsWith` / `trim`)

/-- Decides whether `s` begins with `pat` (character lists). -/
def charsBegin : List Char → List Char → Bool
  | [], _ => true
  | _ :: _, [] => false
  | p :: ps, c :: cs => p == c && charsBegin ps cs

/-- Decides whether `pat` occurs contiguously inside `s` (character lists). -/
def charsHave (pat : List Char) : List Char → Bool
  | [] => pat.isEmpty
  | c :: cs => charsBegin pat (c :: cs) || charsHave pat cs

/-- Embedding of JavaScript `s.includes(pat)`. -/
def strIncludes (s pat : String) : Bool :=
  charsHave pat.data s.data

/-- Embedding of JavaScript `s.startsWith(pre)`. -/
def strStartsWith (s pre : String) : Bool :=
  charsBegin pre.data s.data

/-- White space characters removed by JavaScript `String.prototype.trim`
(the ones relevant to this development). -/
def isJsWs (c : Char) : Bool :=
  c == ' ' || c == '\t' || c == '\n' || c == '\r'

/-- Embedding of JavaScript `s.trim()`. -/
def strTrim (s : String) : String :=
  String.mk (List.rdropWhile isJsWs (List.dropWhile isJsWs s.data))

-- ### JSON parser (embedding of `JSON.parse`)

/-- JSON insignificant white space (RFC 8259: space, tab, line feed,
carriage return). -/
def isJsonWs (c : Char) : Bool :=
  c == ' ' || c == '\t' || c == '\n' || c == '\r'

/-- Skips JSON white space. -/
def skipWs : List Char → List Char
  | [] => []
  | c :: cs => if isJsonWs c then skipWs cs else c :: cs

/-- Value of a hexadecimal digit, if any (decimal digits, then the two
letter ranges, by code point). -/
def hexVal (c : Char) : Option Nat :=
  let n := c.toNat
  if 48 ≤ n && n ≤ 57 then some (n - 48)
  else if 97 ≤ n && n ≤ 102 then some (n - 87)
  else if 65 ≤ n && n ≤ 70 then some (n - 55)
  else none

/-- Translation table of the single-character JSON escapes. -/
def escMap (c : Char) : Option Char :=
  List.lookup c
    [('"', '"'), ('\\', '\\'), ('/', '/'), ('b', Char.ofNat 8),
      ('f', Char.ofNat 12), ('n', '\n'), ('r', '\r'), ('t', '\t')]

/-- Parses the body of a JSON string after the opening quote; returns the
decoded characters and the input after the closing quote.  Surrogate-pair
`\u` escapes are not modelled (no claim depends on them). -/
def parseStrChars : List Char → Option (List Char × List Char)
  | [] => none
  | c :: rest =>
    if c == '"' then some ([], rest)
    else if c == '\\' then
      match rest with
      | [] => none
      | e :: rest2 =>
        if e == 'u' then
          match rest2 with
          | a :: b :: c3 :: d :: rest3 =>
            match hexVal a, hexVal b, hexVal c3, hexVal d with
            | some ha, some hb, some hc, some hd =>
              let code := ((ha * 16 + hb) * 16 + hc) * 16 + hd
              if Nat.isValidChar code then
                (parseStrChars rest3).map fun p => (Char.ofNat code :: p.1, p.2)
              else none
            | _, _, _, _ => none
          | _ => none
        else
          match escMap e with
          | some ch => (parseStrChars rest2).map fun p => (ch :: p.1, p.2)
          | none => none
    else if c.toNat < 32 then none
    else (parseStrChars rest).map fun p => (c :: p.1, p.2)

/-- Parses the digits of a JSON number fraction part, if present. -/
def parseFrac (cs : List Char) : Option (List Char × List Char) :=
  match cs with
  | '.' :: r =>
    let ds := r.takeWhile Char.isDigit
    if ds.isEmpty then none else some ('.' :: ds, r.dropWhile Char.isDigit)
  | _ => some ([], cs)

/-- Parses the exponent part of a JSON number, if present. -/
def parseExp (cs : List Char) : Option (List Char × List Char) :=
  match cs with
  | e :: r =>
    if e == 'e' || e == 'E' then
      let signAndRest : List Char × List Char :=
        match r with
        | s :: r2 => if s == '+' || s == '-' then ([s], r2) else ([], r)
        | [] => ([], r)
      let ds := signAndRest.2.takeWhile Char.isDigit
      if ds.isEmpty then none
      else some (e :: signAndRest.1 ++ ds, signAndRest.2.dropWhile Char.isDigit)
    else some ([], cs)
  | [] => some ([], cs)

/-- Parses a JSON number lexeme; returns the raw lexeme and the rest. -/
def parseNumber (cs : List Char) : Option (List Char × List Char) :=
  let signAndRest : List Char × List Char :=
    match cs with
    | '-' :: r => (['-'], r)
    | _ => ([], cs)
  match signAndRest.2 with
  | c :: r =>
    if c == '0' then
      match parseFrac r with
      | some (fr, r2) =>
        match parseExp r2 with
        | some (ex, r3) => some (signAndRest.1 ++ [c] ++ fr ++ ex, r3)
        | none => none
      | none => none
    else if c.isDigit then
      let ds := (c :: r).takeWhile Char.isDigit
      let r1 := (c :: r).dropWhile Char.isDigit
      match parseFrac r1 with
      | some (fr, r2) =>
        match parseExp r2 with
        | some (ex, r3) => some (signAndRest.1 ++ ds ++ fr ++ ex, r3)
        | none => none
      | none => none
    else none
  | [] => none

mutual

/-- Parses one JSON value (fuel-indexed recursive-descent parser). -/
def parseVal : Nat → List Char → Option (Json × List Char)
  | 0, _ => none
  | fuel + 1, cs =>
    match skipWs cs with
    | [] => none
    | c :: rest =>
      if c == Char.ofNat 123 then
        match skipWs rest with
        | d :: r =>
          if d == Char.ofNat 125 then some (.obj [], r)
          else (parseMembers fuel (d :: r)).map fun p => (.obj p.1, p.2)
        | [] => none
      else if c == '[' then
        match skipWs rest with
        | ']' :: r => some (.arr [], r)
        | r => (parseItems fuel r).map fun p => (.arr p.1, p.2)
      else if c == '"' then
        (parseStrChars rest).map fun p => (.str (String.mk p.1), p.2)
      else if c == 't' then
        match rest with
        | 'r' :: 'u' :: 'e' :: r => some (.bool true, r)
        | _ => none
      else if c == 'f' then
        match rest with
        | 'a' :: 'l' :: 's' :: 'e' :: r => some (.bool false, r)
        | _ => none
      else if c == 'n' then
        match rest with
        | 'u' :: 'l' :: 'l' :: r => some (.null, r)
        | _ => none
      else
        match parseNumber (c :: rest) with
        | some (raw, r) => some (.num (String.mk raw), r)
        | none => none

/-- Parses the members of a JSON object after the opening brace (at least
one member; the empty object is handled in `parseVal`). -/
def parseMembers : Nat → List Char → Option (List (String × Json) × List Char)
  | 0, _ => none
  | fuel + 1, cs =>
    match skipWs cs with
    | '"' :: r =>
      match parseStrChars r with
      | some (key, r2) =>
        match skipWs r2 with
        | ':' :: r3 =>
          match parseVal fuel r3 with
          | some (v, r4) =>
            match skipWs r4 with
            | ',' :: r5 =>
              (parseMembers fuel r5).map fun p =>
                ((String.mk key, v) :: p.1, p.2)
            | d :: r5 =>
              if d == Char.ofNat 125 then some ([(String.mk key, v)], r5)
              else none
            | _ => none
          | none => none
        | _ => none
      | none => none
    | _ => none

/-- Parses the items of a JSON array after the opening bracket (at least
one item; the empty array is handled in `parseVal`). -/
def parseItems : Nat → List Char → Option (List Json × List Char)
  | 0, _ => none
  | fuel + 1, cs =>
    match parseVal fuel cs with
    | some (v, r) =>
      match skipWs r with
      | ',' :: r2 => (parseItems fuel r2).map fun p => (v :: p.1, p.2)
      | ']' :: r2 => some ([v], r2)
      | _ => none
    | none => none

end

/-- Embedding of `JSON.parse`: parses the whole string as one JSON value,
rejecting trailing garbage; `none` models a thrown `SyntaxError`. -/
def parseJson (s : String) : Option Json :=
  match parseVal (4 * s.length + 4) s.data with
  | some (j, rest) => if (skipWs rest).isEmpty then some j else none
  | none => none

-- ### Error message constants of the adapter

/-- Generic empty-response message (gemini.ts line 72). -/
def emptyResponseMsg : String :=
  "The AI returned an empty response. This can happen if the script is too short, vague, or contains content that goes against the safety policy."

/-- Safety-specific empty-response message (line 75). -/
def safetyBlockMsg : String :=
  "The script or style contains content that violates safety policies. Please revise your input and try again."

/-- Recitation-specific empty-response message (line 77). -/
def recitationBlockMsg : String :=
  "The response was blocked due to potential recitation issues. Try rephrasing your script."

/-- Stopped-unexpectedly message, naming the finish reason (line 79). -/
def stoppedMsg (finishReason : String) : String :=
  "Prompt generation stopped unexpectedly. Reason: " ++ finishReason ++
    ". Please check your script content."

/-- Invalid-structure message (line 89). -/
def invalidStructureMsg : String :=
  "The AI returned a response with an invalid structure. Please try again."

/-- Not-valid-JSON message (line 93). -/
def notValidJsonMsg : String :=
  "The AI returned a response that was not valid JSON. This may be a temporary issue, please try again."

/-- Generic prompt-generation failure message (line 107). -/
def genericPromptFailMsg : String :=
  "Failed to generate prompts from the script due to an unexpected AI service error."

/-- Style-analysis failure message (line 130). -/
def analyzeFailMsg : String :=
  "Failed to analyze the reference image style."

/-- No-image soft-failure message (line 150). -/
def noImageMsg : String :=
  "The API did not return an image."

/-- Safety-blocked image message (line 156). -/
def safetyImageMsg : String :=
  "This prompt was blocked for safety reasons. Please try rephrasing it."

/-- Generic image failure message (line 158). -/
def imageFailMsg : String :=
  "Image generation failed."

/-- Stand-in message for a thrown value that is not an `Error` (line 154). -/
def unknownErrorMsg : String :=
  "An unknown error occurred."

-- ### The instruction template of generatePrompts (lines 29-55)

/-- Template text before the optional niche line. -/
def promptHead : String :=
  "System Instruction: You are an expert script analyst and creative director. Your job is to read a script, break it down into key visual moments, and generate safe, detailed prompts for a text-to-image AI.\n\nUser Request:\nI have a script that needs to be visualized. Please generate a series of image prompts based on it.\n\n**Context & Style:**\n"

/-- Label of the conditional niche line. -/
def nicheLabel : String :=
  "- **Topic/Niche:** "

/-- Label of the visual style line. -/
def styleLabel : String :=
  "- **Visual Style:** "

/-- Template text between the style and the script. -/
def promptMid : String :=
  "\n\n**CRITICAL INSTRUCTIONS:**\n1.  **Analyze and Breakdown:** Read the script and divide it into logical scenes or distinct visual moments.\n2.  **Generate Prompts:** For each scene, create ONE image prompt. Each prompt MUST be detailed and strictly adhere to the provided **Visual Style** and incorporate the **Topic/Niche** (if provided).\n3.  **IMPORTANT SAFETY RULE:** You MUST generate prompts that are safe and appropriate for a general audience. Do not describe or imply violence, explicit situations, or sensitive interactions, especially those involving minors, even if historically accurate. If the script contains such themes, you MUST represent them abstractly or symbolically. Focus on setting, atmosphere, and emotion. For example, to show tension, describe \"long, distorted shadows in a dimly lit room\" instead of a direct confrontation. Failure to follow this rule will result in an invalid response.\n4.  **Output Format:** Your entire response MUST be a valid JSON object with a single key \"prompts\", which is an array of strings. Each string in the array is a single image prompt. Do not add any commentary, explanations, or markdown formatting around the JSON.\n\n**Example Response:**\n\x7b\n  \"prompts\": [\n    \"A lone astronaut stands on a desolate red planet, facing a swirling dust storm under a dim sun. Cinematic lighting casts long, dramatic shadows. The style is reminiscent of Denis Villeneuve\x27s \x27Dune\x27.\",\n    \"Extreme close-up on the astronaut\x27s cracked helmet visor. The glass reflects a tiny, distant blue Earth, a stark contrast to the harsh alien landscape. The image is hyperrealistic, with visible dust particles floating in the foreground.\"\n  ]\n\x7d\n\n**SCRIPT TO ANALYZE:**\n---\n"

/-- Template text after the script. -/
def promptTail : String :=
  "\n---\n"

/-- Embedding of the `requestPrompt` template literal (lines 29-55).  The
niche line is included only when `niche` is truthy, that is non-empty. -/
def buildRequestPrompt (script style niche : String) : String :=
  promptHead ++ (if niche == "" then "" else nicheLabel ++ niche ++ "\n") ++
    styleLabel ++ style ++ promptMid ++ script ++ promptTail

-- ### Shapes of the remote responses the code reads

/-- One entry of `response.candidates`; the code reads only `finishReason`,
which may be absent. -/
structure Candidate where
  finishReason : Option String
deriving Repr, DecidableEq

/-- Shape of a `generateContent` response as consumed by the code:
`response.text` (possibly undefined) and `response.candidates` (possibly
undefined, each entry with a possibly undefined finish reason). -/
structure GenContentResponse where
  text : Option String
  candidates : Option (List Candidate)
deriving Repr, DecidableEq

/-- Embedding of `response.candidates?.[0]?.finishReason` (line 71). -/
def finishReasonOf (r : GenContentResponse) : Option String :=
  match r.candidates with
  | some (c :: _) => c.finishReason
  | _ => none

-- ### JavaScript truthiness on parsed JSON values

/-- Decides whether the raw lexeme of a JSON number denotes zero (all of its
mantissa digits are 0). -/
def rawNumIsZero (raw : String) : Bool :=
  let cs := match raw.data with
    | '-' :: r => r
    | l => l
  let mant := cs.takeWhile fun c => c != 'e' && c != 'E'
  (mant.filter fun c => c != '.').all fun c => c == '0'

/-- JavaScript truthiness of a value produced by `JSON.parse`: `null`,
`false`, `0` and `""` are falsy; every object and array is truthy. -/
def Json.truthy : Json → Bool
  | .null => false
  | .bool b => b
  | .num raw => !(rawNumIsZero raw)
  | .str s => !(s == "")
  | .arr _ => true
  | .obj _ => true

/-- Embedding of JavaScript property access `j.key` on a parsed JSON value:
only objects carry properties, and a duplicated key takes its last value,
as with `JSON.parse`. -/
def getProp : Json → String → Option Json
  | .obj fields, key => lookupLast fields key
  | _, _ => none
where
  /-- Last binding of `key` in the field list, if any. -/
  lookupLast : List (String × Json) → String → Option Json
  | [], _ => none
  | (k, v) :: rest, key =>
    match lookupLast rest key with
    | some r => some r
    | none => if k == key then some v else none

-- ### generatePrompts (lines 28-109)

/-- Successful result of `generatePrompts`: the parsed `prompts` array
(whose elements the code never type-checks) and the instruction text that
was dispatched. -/
structure PromptsOk where
  prompts : List Json
  requestPrompt : String
deriving Repr

/-- Embedding of the inner try/catch around `JSON.parse` (lines 84-94).
The `catch (parseError)` block wraps the whole structure check, so both a
`SyntaxError` from `JSON.parse` and the invalid-structure `Error` thrown at
line 89 are caught there and replaced by the not-valid-JSON `Error`. -/
def parsePromptsJson (jsonText : String) : Except Thrown (List Json) :=
  let attempt : Except Thrown (List Json) :=
    match parseJson jsonText with
    | none => .error ⟨true, "Unexpected token in JSON"⟩
    | some result =>
      if result.truthy then
        match getProp result "prompts" with
        | some (Json.arr xs) => .ok xs
        | _ => .error ⟨true, invalidStructureMsg⟩
      else .error ⟨true, invalidStructureMsg⟩
  match attempt with
  | .ok xs => .ok xs
  | .error _ => .error ⟨true, notValidJsonMsg⟩

/-- Embedding of the message selection for an empty response (lines 72-80).
The guard of the last branch is `finishReason && finishReason !== STOP`, so
an empty-string finish reason is falsy and keeps the generic message. -/
def emptyMessageFor : Option String → String
  | some fr =>
    if fr == "SAFETY" then safetyBlockMsg
    else if fr == "RECITATION" then recitationBlockMsg
    else if fr != "" && fr != "STOP" then stoppedMsg fr
    else emptyResponseMsg
  | none => emptyResponseMsg

/-- Body of the outer `try` of `generatePrompts` (lines 57-94).  The remote
call is the function argument `remote`, applied to the dispatched
instruction text; `.error` is a thrown value. -/
def promptAttempt (script style niche : String)
    (remote : String → Except Thrown GenContentResponse) :
    Except Thrown PromptsOk :=
  let requestPrompt := buildRequestPrompt script style niche
  match remote requestPrompt with
  | .error e => .error e
  | .ok response =>
    match response.text with
    | none => .error ⟨true, emptyMessageFor (finishReasonOf response)⟩
    | some jsonText =>
      if jsonText == "" then
        .error ⟨true, emptyMessageFor (finishReasonOf response)⟩
      else
        (parsePromptsJson jsonText).map fun xs => ⟨xs, requestPrompt⟩

/-- Embedding of the outer `catch` (lines 96-108): an `Error` whose message
carries one of the four known prefixes is re-thrown unchanged, anything
else is replaced by the generic failure `Error`. -/
def sanitizePromptError : Except Thrown PromptsOk → Except Thrown PromptsOk
  | .ok r => .ok r
  | .error e =>
    if e.isError && (strStartsWith e.message "The AI returned" ||
        strStartsWith e.message "The script or style" ||
        strStartsWith e.message "The response was blocked" ||
        strStartsWith e.message "Prompt generation stopped") then
      .error e
    else
      .error ⟨true, genericPromptFailMsg⟩

/-- Embedding of `generatePrompts` (lines 28-109). -/
def generatePrompts (script style niche : String)
    (remote : String → Except Thrown GenContentResponse) :
    Except Thrown PromptsOk :=
  sanitizePromptError (promptAttempt script style niche remote)

-- ### analyzeImageStyle (lines 111-132)

/-- Input of `analyzeImageStyle`: base64 image data and MIME type. -/
structure ImageData where
  base64 : String
  mimeType : String
deriving Repr, DecidableEq

/-- Embedding of `analyzeImageStyle` (lines 111-132): on success it returns
`response.text.trim()`; when `response.text` is undefined that expression
raises a `TypeError`, and every raised failure is caught and replaced by
the generic analyze-failure `Error` (line 130). -/
def analyzeImageStyle (imageData : ImageData)
    (remote : Except Thrown GenContentResponse) : Except Thrown String :=
  match remote with
  | .ok response =>
    match response.text with
    | some s => .ok (strTrim s)
    | none => .error ⟨true, analyzeFailMsg⟩
  | .error _ => .error ⟨true, analyzeFailMsg⟩

-- ### generateImage (lines 135-160)

/-- Modelled from the spec: `AspectRatio` is an enumerated string type
defined in `../types`, a file that is not part of the repository snapshot;
the adapter passes the value through unchanged. -/
abbrev AspectRatio := String

/-- Image payload of one generated image; the spec (section 6) describes
each generated image as exposing its image bytes. -/
structure ImageObject where
  imageBytes : String
deriving Repr, DecidableEq

/-- One entry of `response.generatedImages`. -/
structure GeneratedImage where
  image : ImageObject
deriving Repr, DecidableEq

/-- Shape of a `generateImages` response as consumed by the code:
`generatedImages` may be undefined or an arbitrary list. -/
structure GenerateImagesResponse where
  generatedImages : Option (List GeneratedImage)
deriving Repr, DecidableEq

/-- Result pair of `generateImage`. -/
structure ImageResult where
  base64 : Option String
  error : Option String
deriving Repr, DecidableEq

/-- Embedding of `generateImage` (lines 135-160).  It never throws: a
thrown remote failure is mapped to a result with a safety message when the
message of a thrown `Error` contains one of the known safety substrings,
and to the generic failure message otherwise. -/
def generateImage (prompt : String) (aspectRatio : AspectRatio)
    (remote : Except Thrown GenerateImagesResponse) : ImageResult :=
  match remote with
  | .ok response =>
    match response.generatedImages with
    | some (first :: _) => ⟨some first.image.imageBytes, none⟩
    | _ => ⟨none, some noImageMsg⟩
  | .error err =>
    let errorMessage := if err.isError then err.message else unknownErrorMsg
    if strIncludes errorMessage "sensitive words" ||
        strIncludes errorMessage "Responsible AI practices" ||
        strIncludes errorMessage "prompt contains sensitive words" then
      ⟨none, some safetyImageMsg⟩
    else
      ⟨none, some imageFailMsg⟩

-- ### Helper lemmas about the string utilities

/-- A prefix of `a` is a prefix of `a ++ b`. -/
theorem charsBegin_append (p a b : List Char) (h : charsBegin p a = true) :
    charsBegin p (a ++ b) = true := by
  induction p generalizing a with
  | nil => rfl
  | cons x xs ih =>
    cases a with
    | nil => simp [charsBegin] at h
    | cons y ys =>
      simp only [List.cons_append, charsBegin, Bool.and_eq_true] at h ⊢
      exact ⟨h.1, ih ys h.2⟩

/-- A string prefix of `a` is a string prefix of `a ++ b`. -/
theorem strStartsWith_append (a b pre : String)
    (h : strStartsWith a pre = true) : strStartsWith (a ++ b) pre = true := by
  unfold strStartsWith at h ⊢
  rw [String.data_append]
  exact charsBegin_append _ _ _ h

/-- Characterisation of `charsBegin`. -/
theorem charsBegin_iff (p s : List Char) :
    charsBegin p s = true ↔ ∃ t, s = p ++ t := by
  induction p generalizing s with
  | nil => simp [charsBegin]
  | cons x xs ih =>
    cases s with
    | nil =>
      simp [charsBegin]
    | cons y ys =>
      simp only [charsBegin, Bool.and_eq_true, beq_iff_eq, ih, List.cons_append,
        List.cons.injEq]
      constructor
      · rintro ⟨rfl, t, rfl⟩
        exact ⟨t, rfl, rfl⟩
      · rintro ⟨t, rfl, rfl⟩
        exact ⟨rfl, t, rfl⟩

/-- Characterisation of `charsHave`. -/
theorem charsHave_iff (p s : List Char) :
    charsHave p s = true ↔ ∃ u v, s = u ++ p ++ v := by
  induction s with
  | nil =>
    cases p with
    | nil => simp [charsHave]
    | cons x xs =>
      simp only [charsHave, List.isEmpty_cons]
      constructor
      · intro h
        cases h
      · rintro ⟨u, v, h⟩
        exact absurd h (by simp)
  | cons c cs ih =>
    simp only [charsHave, Bool.or_eq_true, charsBegin_iff, ih]
    constructor
    · rintro (⟨t, ht⟩ | ⟨u, v, hv⟩)
      · exact ⟨[], t, by simpa using ht⟩
      · exact ⟨c :: u, v, by simp [hv]⟩
    · rintro ⟨u, v, huv⟩
      cases u with
      | nil =>
        exact Or.inl ⟨v, by simpa using huv⟩
      | cons u0 us =>
        simp only [List.cons_append, List.cons.injEq] at huv
        exact Or.inr ⟨us, v, huv.2⟩

/-- Containment of substrings is transitive through an intermediate string. -/
theorem strIncludes_trans (s mid pat : String)
    (h1 : strIncludes s mid = true) (h2 : strIncludes mid pat = true) :
    strIncludes s pat = true := by
  unfold strIncludes at h1 h2 ⊢
  rw [charsHave_iff] at h1 h2 ⊢
  obtain ⟨u, v, hu⟩ := h1
  obtain ⟨a, b, ha⟩ := h2
  exact ⟨u ++ a, b ++ v, by simp [hu, ha]⟩

/-- JavaScript `trim` is idempotent. -/
theorem strTrim_idem (s : String) : strTrim (strTrim s) = strTrim s := by
  unfold strTrim
  have hdata : ∀ l : List Char, (String.mk l).data = l := fun _ => rfl
  rw [hdata]
  set m := List.dropWhile isJsWs s.data with hm
  have h1 : List.dropWhile isJsWs m = m := by
    rw [hm]
    exact List.dropWhile_idempotent isJsWs s.data
  have hpre : List.rdropWhile isJsWs m <+: m := List.rdropWhile_prefix isJsWs m
  have h2 : List.dropWhile isJsWs (List.rdropWhile isJsWs m) =
      List.rdropWhile isJsWs m := by
    obtain ⟨t, ht⟩ := hpre
    cases hr : List.rdropWhile isJsWs m with
    | nil => rfl
    | cons a r2 =>
      rw [hr] at ht
      have hws : isJsWs a = false := by
        cases hwa : isJsWs a with
        | false => rfl
        | true =>
          have hm2 : m = a :: (r2 ++ t) := by
            rw [← ht]
            simp
          rw [hm2, List.dropWhile_cons, hwa, if_pos rfl] at h1
          have hlen := (List.dropWhile_sublist (p := isJsWs) (l := r2 ++ t)).length_le
          rw [h1] at hlen
          simp at hlen
      rw [List.dropWhile_cons, hws]
      simp
  rw [h2, List.rdropWhile_idempotent]

/-- A value with a property is an object. -/
theorem getProp_some_obj (j : Json) (key : String) (v : Json)
    (h : getProp j key = some v) : ∃ fields, j = Json.obj fields := by
  cases j <;> simp [getProp] at h ⊢

-- ### Claim theorems

/-- C1 (code bug in the source): the claim states that a remote response
whose text parses as JSON but lacks an array-valued `prompts` field fails
with the invalid-structure message of line 89.  The code disagrees: that
`Error` is thrown inside the inner `try` of lines 84-94, whose own
`catch (parseError)` replaces every failure raised in its block, including
this one, with the not-valid-JSON message, so the invalid-structure message
can never reach a caller.  At the response text named by the claim the
surfaced message is the not-valid-JSON one, which is a different string. -/
theorem invalid_structure_message_swallowed :
    generatePrompts "script" "style" "niche"
        (fun _ => .ok ⟨some "\x7b\"foo\":1\x7d", none⟩) =
      .error ⟨true, notValidJsonMsg⟩ ∧
    notValidJsonMsg ≠ invalidStructureMsg :=
  ⟨rfl, by decide⟩

/-- C2: for every script, style and niche, a remote response whose text is
the JSON object binding `prompts` to the array of "a" and "b" makes
`generatePrompts` return those two prompts together with
`buildRequestPrompt script style niche`, which is definitionally the exact
instruction text that `promptAttempt` hands to the remote call. -/
theorem generatePrompts_success_pair (script style niche : String) :
    generatePrompts script style niche
        (fun _ => .ok ⟨some "\x7b\"prompts\":[\"a\",\"b\"]\x7d", none⟩) =
      .ok ⟨[Json.str "a", Json.str "b"], buildRequestPrompt script style niche⟩ :=
  rfl

set_option maxRecDepth 100000 in
/-- C3: when script, style and niche are all non-empty the instruction text
contains each of them verbatim (witnessed by explicit decompositions), and
when the niche is empty the built text is exactly the template without the
niche line; no constant segment of the template contains the niche label,
so the construction emits no niche-labeled line of its own. -/
theorem requestPrompt_embeds_inputs (script style niche : String) :
    (script ≠ "" → style ≠ "" → niche ≠ "" →
      (∃ p q, buildRequestPrompt script style niche = p ++ script ++ q) ∧
      (∃ p q, buildRequestPrompt script style niche = p ++ style ++ q) ∧
      (∃ p q, buildRequestPrompt script style niche = p ++ niche ++ q)) ∧
    buildRequestPrompt script style "" =
      promptHead ++ styleLabel ++ style ++ promptMid ++ script ++ promptTail ∧
    strIncludes promptHead nicheLabel = false ∧
    strIncludes styleLabel nicheLabel = false ∧
    strIncludes promptMid nicheLabel = false ∧
    strIncludes promptTail nicheLabel = false := by
  refine ⟨fun _ _ hn => ?_, ?_, by decide, by decide, by decide, by decide⟩
  · have hn' : (niche == "") = false := beq_eq_false_iff_ne.mpr hn
    refine ⟨⟨promptHead ++ nicheLabel ++ niche ++ "\n" ++ styleLabel ++ style ++
        promptMid, promptTail, ?_⟩,
      ⟨promptHead ++ nicheLabel ++ niche ++ "\n" ++ styleLabel,
        promptMid ++ script ++ promptTail, ?_⟩,
      ⟨promptHead ++ nicheLabel,
        "\n" ++ styleLabel ++ style ++ promptMid ++ script ++ promptTail, ?_⟩⟩ <;>
      simp [buildRequestPrompt, hn', String.append_assoc]
  · simp [buildRequestPrompt]

/-- C3 witness at concrete non-empty inputs. -/
theorem requestPrompt_embeds_inputs_witness :
    (∃ p q, buildRequestPrompt "a" "b" "c" = p ++ "a" ++ q) ∧
    (∃ p q, buildRequestPrompt "a" "b" "c" = p ++ "b" ++ q) ∧
    (∃ p q, buildRequestPrompt "a" "b" "c" = p ++ "c" ++ q) :=
  (requestPrompt_embeds_inputs "a" "b" "c").1 (by decide) (by decide) (by decide)

/-- Helper: with an empty (undefined or empty-string) response text,
the try body fails with the message selected by the finish reason. -/
theorem promptAttempt_empty_text (script style niche : String)
    (response : GenContentResponse)
    (hempty : response.text = none ∨ response.text = some "") :
    promptAttempt script style niche (fun _ => .ok response) =
      .error ⟨true, emptyMessageFor (finishReasonOf response)⟩ := by
  rcases hempty with h | h <;> simp [promptAttempt, h]

/-- C4 counterexample: the claim requires the stopped-unexpectedly message
for every finish reason that is present and differs from STOP, but with a
present empty-string finish reason the guard
`finishReason && finishReason !== STOP` is falsy and the code raises the
generic empty-response message instead. -/
theorem empty_finish_reason_generic :
    generatePrompts "s" "t" "n" (fun _ => .ok ⟨some "", some [⟨some ""⟩]⟩) =
      .error ⟨true, emptyResponseMsg⟩ ∧
    emptyResponseMsg ≠ stoppedMsg "" :=
  ⟨rfl, by decide⟩

/-- C4 (amended): with an empty or undefined response text,
`generatePrompts` fails, and the surfaced message is selected by the finish
reason: the safety message for SAFETY, the recitation message for
RECITATION, the stopped-unexpectedly message naming the reason for any
other present, non-empty, non-STOP reason, and the generic empty-response
message otherwise (reason absent, empty, or STOP). -/
theorem emptyResponse_message_selection (script style niche : String)
    (response : GenContentResponse)
    (hempty : response.text = none ∨ response.text = some "") :
    (finishReasonOf response = some "SAFETY" →
      generatePrompts script style niche (fun _ => .ok response) =
        .error ⟨true, safetyBlockMsg⟩) ∧
    (finishReasonOf response = some "RECITATION" →
      generatePrompts script style niche (fun _ => .ok response) =
        .error ⟨true, recitationBlockMsg⟩) ∧
    (∀ fr, finishReasonOf response = some fr → fr ≠ "" → fr ≠ "SAFETY" →
      fr ≠ "RECITATION" → fr ≠ "STOP" →
      generatePrompts script style niche (fun _ => .ok response) =
        .error ⟨true, stoppedMsg fr⟩) ∧
    ((finishReasonOf response = none ∨ finishReasonOf response = some "" ∨
        finishReasonOf response = some "STOP") →
      generatePrompts script style niche (fun _ => .ok response) =
        .error ⟨true, emptyResponseMsg⟩) := by
  have hA := promptAttempt_empty_text script style niche response hempty
  refine ⟨fun h => ?_, fun h => ?_, fun fr h h1 h2 h3 h4 => ?_, fun h => ?_⟩
  · show sanitizePromptError _ = _
    rw [hA, h]
    rfl
  · show sanitizePromptError _ = _
    rw [hA, h]
    rfl
  · show sanitizePromptError _ = _
    rw [hA, h]
    have e1 : (fr == "SAFETY") = false := beq_eq_false_iff_ne.mpr h2
    have e2 : (fr == "RECITATION") = false := beq_eq_false_iff_ne.mpr h3
    have e3 : (fr == "") = false := beq_eq_false_iff_ne.mpr h1
    have e4 : (fr == "STOP") = false := beq_eq_false_iff_ne.mpr h4
    have hmsg : emptyMessageFor (some fr) = stoppedMsg fr := by
      simp [emptyMessageFor, e1, e2, e3, e4, bne]
    rw [hmsg]
    have hpre : strStartsWith (stoppedMsg fr) "Prompt generation stopped" =
        true := by
      have base : strStartsWith
          "Prompt generation stopped unexpectedly. Reason: "
          "Prompt generation stopped" = true := by decide
      exact strStartsWith_append _ _ _ (strStartsWith_append _ _ _ base)
    simp [sanitizePromptError, hpre]
  · show sanitizePromptError _ = _
    rw [hA]
    rcases h with h | h | h <;> rw [h] <;> rfl

/-- C4 witness: empty text with finish reason SAFETY is mapped to the
safety-specific message. -/
theorem emptyResponse_message_selection_witness :
    generatePrompts "s" "t" "" (fun _ => .ok ⟨none, some [⟨some "SAFETY"⟩]⟩) =
      .error ⟨true, safetyBlockMsg⟩ :=
  (emptyResponse_message_selection "s" "t" "" ⟨none, some [⟨some "SAFETY"⟩]⟩
    (Or.inl rfl)).1 rfl

/-- Helper: every error produced by the outer catch either carries one of
the four recognised prefixes (re-thrown unchanged) or is the generic one. -/
theorem sanitize_error_messages (x : Except Thrown PromptsOk) (e : Thrown)
    (h : sanitizePromptError x = .error e) :
    strStartsWith e.message "The AI returned" = true ∨
    strStartsWith e.message "The script or style" = true ∨
    strStartsWith e.message "The response was blocked" = true ∨
    strStartsWith e.message "Prompt generation stopped" = true ∨
    e.message = genericPromptFailMsg := by
  cases x with
  | ok v => simp [sanitizePromptError] at h
  | error e0 =>
    by_cases hc : (e0.isError && (strStartsWith e0.message "The AI returned" ||
        strStartsWith e0.message "The script or style" ||
        strStartsWith e0.message "The response was blocked" ||
        strStartsWith e0.message "Prompt generation stopped")) = true
    · simp only [sanitizePromptError, hc, if_true] at h
      cases h
      simp only [Bool.and_eq_true, Bool.or_eq_true] at hc
      tauto
    · simp only [sanitizePromptError, hc, if_false, Bool.false_eq_true] at h
      cases h
      simp

/-- C5: every failure of `generatePrompts` reaches the caller either with a
message carrying one of the four known descriptive prefixes (such an
`Error` is re-thrown unchanged by the outer catch) or as the single generic
unexpected-AI-service-error message; no other error text is surfaced. -/
theorem prompt_error_messages_sanitized (script style niche : String)
    (remote : String → Except Thrown GenContentResponse) (e : Thrown)
    (h : generatePrompts script style niche remote = .error e) :
    strStartsWith e.message "The AI returned" = true ∨
    strStartsWith e.message "The script or style" = true ∨
    strStartsWith e.message "The response was blocked" = true ∨
    strStartsWith e.message "Prompt generation stopped" = true ∨
    e.message = genericPromptFailMsg :=
  sanitize_error_messages _ e h

/-- C5 witness: a non-Error remote failure surfaces the generic message. -/
theorem prompt_error_messages_sanitized_witness :
    strStartsWith genericPromptFailMsg "The AI returned" = true ∨
    strStartsWith genericPromptFailMsg "The script or style" = true ∨
    strStartsWith genericPromptFailMsg "The response was blocked" = true ∨
    strStartsWith genericPromptFailMsg "Prompt generation stopped" = true ∨
    genericPromptFailMsg = genericPromptFailMsg :=
  prompt_error_messages_sanitized "" "" ""
    (fun _ => .error ⟨false, "network failure"⟩) ⟨true, genericPromptFailMsg⟩
    rfl

/-- C6: `generateImage` is a total function into `ImageResult` (it never
throws for a service-level failure), and for every prompt, aspect ratio and
remote outcome exactly one field of the result is populated: the bytes are
present exactly when the error is null. -/
theorem generateImage_exactly_one_field (prompt : String)
    (ratio : AspectRatio) (remote : Except Thrown GenerateImagesResponse) :
    ((generateImage prompt ratio remote).base64 ≠ none ↔
      (generateImage prompt ratio remote).error = none) := by
  cases remote with
  | ok response =>
    rcases response with ⟨gi⟩
    rcases gi with _ | ⟨_ | ⟨first, rest⟩⟩ <;> simp [generateImage]
  | error err =>
    by_cases hc : (strIncludes (if err.isError then err.message else
        unknownErrorMsg) "sensitive words" ||
      strIncludes (if err.isError then err.message else unknownErrorMsg)
        "Responsible AI practices" ||
      strIncludes (if err.isError then err.message else unknownErrorMsg)
        "prompt contains sensitive words") = true <;>
      simp [generateImage, hc]

/-- C7: when the remote image call returns without raising, a response with
zero generated images yields exactly the no-image soft failure, and a
response with at least one image yields the bytes of the first image with a
null error. -/
theorem generateImage_presence_cases (prompt : String) (ratio : AspectRatio)
    (response : GenerateImagesResponse) :
    ((response.generatedImages = none ∨ response.generatedImages = some []) →
      generateImage prompt ratio (.ok response) = ⟨none, some noImageMsg⟩) ∧
    (∀ first rest, response.generatedImages = some (first :: rest) →
      generateImage prompt ratio (.ok response) =
        ⟨some first.image.imageBytes, none⟩) := by
  constructor
  · rintro (h | h) <;> simp [generateImage, h]
  · intro first rest h
    simp [generateImage, h]

/-- C7 witness: an undefined generated-image list yields the soft failure. -/
theorem generateImage_presence_cases_witness :
    generateImage "p" "1:1" (.ok ⟨none⟩) = ⟨none, some noImageMsg⟩ :=
  (generateImage_presence_cases "p" "1:1" ⟨none⟩).1 (Or.inl rfl)

/-- C8: a thrown remote failure never escapes `generateImage`: an `Error`
whose message contains one of the safety substrings maps to the
safety-blocked result, and every other thrown value (an `Error` without
those substrings, or a non-Error value) maps to the generic
image-generation-failed result. -/
theorem generateImage_exception_mapping (prompt : String)
    (ratio : AspectRatio) (e : Thrown) :
    (e.isError = true →
      ((strIncludes e.message "sensitive words" = true ∨
          strIncludes e.message "Responsible AI practices" = true) →
        generateImage prompt ratio (.error e) = ⟨none, some safetyImageMsg⟩) ∧
      (strIncludes e.message "sensitive words" = false →
        strIncludes e.message "Responsible AI practices" = false →
        generateImage prompt ratio (.error e) = ⟨none, some imageFailMsg⟩)) ∧
    (e.isError = false →
      generateImage prompt ratio (.error e) = ⟨none, some imageFailMsg⟩) := by
  constructor
  · intro hE
    constructor
    · rintro (h | h) <;> simp [generateImage, hE, h]
    · intro h1 h2
      have h3 : strIncludes e.message "prompt contains sensitive words" =
          false := by
        cases h3 : strIncludes e.message "prompt contains sensitive words" with
        | false => rfl
        | true =>
          have : strIncludes e.message "sensitive words" = true :=
            strIncludes_trans _ _ _ h3 (by decide)
          rw [h1] at this
          cases this
      simp [generateImage, hE, h1, h2, h3]
  · intro hE
    have d1 : strIncludes "An unknown error occurred." "sensitive words" =
        false := by decide
    have d2 : strIncludes "An unknown error occurred."
        "Responsible AI practices" = false := by decide
    have d3 : strIncludes "An unknown error occurred."
        "prompt contains sensitive words" = false := by decide
    simp [generateImage, hE, unknownErrorMsg, d1, d2, d3]

/-- C8 witness: an `Error` containing a safety substring is mapped to the
safety-blocked result. -/
theorem generateImage_exception_mapping_witness :
    generateImage "p" "1:1" (.error ⟨true, "x sensitive words y"⟩) =
      ⟨none, some safetyImageMsg⟩ :=
  ((generateImage_exception_mapping "p" "1:1" ⟨true, "x sensitive words y"⟩).1
    rfl).1 (Or.inl (by decide))

/-- C9 counterexample: the claim states that a successful remote call always
yields a non-empty trimmed string, but a successful response whose text is
all white space is trimmed to the empty string and returned successfully. -/
theorem analyze_whitespace_text_returns_empty :
    analyzeImageStyle ⟨"b", "m"⟩ (.ok ⟨some " ", none⟩) = .ok "" ∧
    String.isEmpty "" = true :=
  ⟨rfl, rfl⟩

/-- C9 (amended): on a successful remote call with a defined response text
`analyzeImageStyle` returns the trimmed text, every returned string is
trimmed (it has no leading or trailing white space, but may be empty), and
every failure, including an undefined response text, is replaced with the
single generic analyze-failure message. -/
theorem analyze_trim_and_failure (d : ImageData)
    (remote : Except Thrown GenContentResponse) :
    (∀ r s, remote = .ok r → r.text = some s →
      analyzeImageStyle d remote = .ok (strTrim s)) ∧
    (∀ t, analyzeImageStyle d remote = .ok t → strTrim t = t) ∧
    (∀ r, remote = .ok r → r.text = none →
      analyzeImageStyle d remote = .error ⟨true, analyzeFailMsg⟩) ∧
    (∀ e, remote = .error e →
      analyzeImageStyle d remote = .error ⟨true, analyzeFailMsg⟩) := by
  refine ⟨fun r s hr hs => ?_, fun t ht => ?_, fun r hr hs => ?_,
    fun e he => ?_⟩
  · rw [hr]
    simp [analyzeImageStyle, hs]
  · cases remote with
    | error e0 => simp [analyzeImageStyle] at ht
    | ok r0 =>
      cases hs : r0.text with
      | none => simp [analyzeImageStyle, hs] at ht
      | some s0 =>
        simp only [analyzeImageStyle, hs, Except.ok.injEq] at ht
        rw [← ht]
        exact strTrim_idem s0
  · rw [hr]
    simp [analyzeImageStyle, hs]
  · rw [he]
    simp [analyzeImageStyle]

/-- C9 witness at a concrete successful response. -/
theorem analyze_trim_and_failure_witness :
    analyzeImageStyle ⟨"b", "m"⟩ (.ok ⟨some "  x ", none⟩) =
      .ok (strTrim "  x ") :=
  (analyze_trim_and_failure ⟨"b", "m"⟩ (.ok ⟨some "  x ", none⟩)).1
    ⟨some "  x ", none⟩ "  x " rfl rfl

/-- C10: the element types of the parsed `prompts` field are never checked:
whenever the response text parses as JSON carrying an array-valued
`prompts` property, whatever its elements (empty, numbers, mixed),
`generatePrompts` succeeds and returns that array unchanged. -/
theorem prompts_array_not_type_checked (script style niche s : String)
    (j : Json) (xs : List Json)
    (hparse : parseJson s = some j)
    (hprompts : getProp j "prompts" = some (Json.arr xs)) :
    generatePrompts script style niche (fun _ => .ok ⟨some s, none⟩) =
      .ok ⟨xs, buildRequestPrompt script style niche⟩ := by
  obtain ⟨fs, rfl⟩ := getProp_some_obj j "prompts" (Json.arr xs) hprompts
  have hs : (s == "") = false := by
    cases h : s == "" with
    | false => rfl
    | true =>
      have hempty : s = "" := eq_of_beq h
      subst hempty
      rw [show parseJson "" = (none : Option Json) from rfl] at hparse
      exact Option.noConfusion hparse
  have hp : parsePromptsJson s = .ok xs := by
    unfold parsePromptsJson
    rw [hparse]
    simp [Json.truthy, hprompts]
  show sanitizePromptError (promptAttempt script style niche _) = _
  unfold promptAttempt
  simp [hs, hp, sanitizePromptError, Except.map]

/-- C10 witness: a number-valued prompts array is returned unchanged. -/
theorem prompts_array_not_type_checked_witness :
    parseJson "\x7b\"prompts\":[1]\x7d" =
      some (Json.obj [("prompts", Json.arr [Json.num "1"])]) ∧
    generatePrompts "s" "t" "n"
        (fun _ => .ok ⟨some "\x7b\"prompts\":[1]\x7d", none⟩) =
      .ok ⟨[Json.num "1"], buildRequestPrompt "s" "t" "n"⟩ :=
  ⟨rfl, prompts_array_not_type_checked "s" "t" "n" "\x7b\"prompts\":[1]\x7d"
    (Json.obj [("prompts", Json.arr [Json.num "1"])]) [Json.num "1"] rfl rfl⟩
